import Mathlib

/-!
Shallow embedding of the Google Cloud Pub/Sub subscriber
(pkg/googlecloud/subscriber.go) for verifying its specification.

The remote Pub/Sub service is modelled as an oracle (`RemoteEnv`) supplying
the result of each remote call that a single resolution attempt can make;
the functions record the remote calls they issue in a trace (`List RemoteCall`)
so that claims about "no mutation performed" are statable.  Mutable subscriber
state (the subscription cache, the client list, the closed flag) is threaded
explicitly.
-/

deriving instance DecidableEq for Except

namespace GCloud

/-- Result of a remote create call: success, the gRPC AlreadyExists code, or
another error (`status.Code(err) == codes.AlreadyExists` in the source). -/
inductive CreateRes where
  | ok : CreateRes
  | alreadyExists : CreateRes
  | err : String → CreateRes
deriving DecidableEq, Repr

/-- A client handle (`*pubsub.Client`); identified by its position in the
process-wide client list, so that handles opened by different clients are
distinguishable. -/
structure Client where
  id : Nat
deriving DecidableEq, Repr

/-- A subscription handle (`*pubsub.Subscription`): the client it came from,
its name, and its client-local receive settings (opaque, `0` is Go's zero
value, i.e. settings never applied). -/
structure Subscription where
  clientId : Nat
  name : String
  receiveSettings : Nat
deriving DecidableEq, Repr

/-- The subscription handle produced by `client.Subscription(name)`: fresh,
with zero-value receive settings. -/
def Client.subscriptionHandle (c : Client) (name : String) : Subscription :=
  { clientId := c.id, name := name, receiveSettings := 0 }

/-- The part of `pubsub.SubscriptionConfig` the subscriber inspects: the bound
topic (its fully qualified name, `config.Topic.String()`), the filter
expression, and the push endpoint (`config.PushConfig.Endpoint`). -/
structure SubscriptionConfig where
  topicFullName : String
  filter : String
  pushEndpoint : String
deriving DecidableEq, Repr

/-- Embedding of `SubscriberConfig`.  `generateSubscriptionName` is the
`GenerateSubscriptionName` naming function; `receiveSettings` stands for
`ReceiveSettings` (opaque, nonzero means caller-supplied). -/
structure SubscriberConfig where
  generateSubscriptionName : String → String
  projectID : String
  topicProjectIDOpt : String
  doNotCreateSubscriptionIfMissing : Bool
  doNotUpdateSubscriptionIfEndpointChanged : Bool
  recreateSubscriptionIfFilterChanged : Bool
  doNotCreateTopicIfMissing : Bool
  receiveSettings : Nat
  subscriptionConfig : SubscriptionConfig

/-- Embedding of `SubscriberConfig.topicProjectID()`: the topic project id
falls back to the subscription project id when unset. -/
def SubscriberConfig.topicProjectID (sc : SubscriberConfig) : String :=
  if sc.topicProjectIDOpt ≠ "" then sc.topicProjectIDOpt else sc.projectID

/-- Oracle for the remote service: the outcome of each remote operation a
single resolution attempt may perform. -/
structure RemoteEnv where
  newClientRes : Except String Unit
  subExistsRes : Except String Bool
  subConfigRes : Except String SubscriptionConfig
  deleteRes : Option String
  updateRes : Except String Unit
  topicExistsRes : Except String Bool
  createTopicRes : CreateRes
  createSubRes : CreateRes

/-- The remote calls a resolution can issue; mutating calls are
`deleteSub`, `updateSub`, `createTopic` and `createSub`. -/
inductive RemoteCall where
  | subExists : String → RemoteCall
  | fetchConfig : String → RemoteCall
  | deleteSub : String → RemoteCall
  | updateSub : String → String → RemoteCall
  | topicExists : String → RemoteCall
  | createTopic : String → RemoteCall
  | createSub : String → String → RemoteCall
deriving DecidableEq, Repr

/-- Whether a remote call mutates the remote service (delete, update or
create), as opposed to a pure read (existence check, config fetch). -/
def RemoteCall.isMutation : RemoteCall → Bool
  | .subExists _ => false
  | .fetchConfig _ => false
  | .deleteSub _ => true
  | .updateSub _ _ => true
  | .topicExists _ => true
  | .createTopic _ => true
  | .createSub _ _ => true

/-- Errors the subscriber can return, each wrapping the underlying cause as
in the source (`errors.Wrap` of the sentinel errors and transport errors). -/
inductive SubError where
  | subscriberClosed : SubError
  | subscriptionDoesNotExist : String → SubError
  | unexpectedTopic : String → String → SubError
  | topicDoesNotExist : String → SubError
  | subExistsCheckFailed : String → String → SubError
  | topicExistsCheckFailed : String → String → SubError
  | configFetchFailed : String → SubError
  | deleteFailed : String → SubError
  | createTopicFailed : String → SubError
  | createSubFailed : String → SubError
  | updateFailed : String → SubError
  | newClientFailed : String → SubError
deriving DecidableEq, Repr

/-- Mutable subscriber state: the closed flag, the name-to-handle cache
(`activeSubscriptions`, newest entry first, matching Go map overwrite), and
the process-wide client list. -/
structure SubscriberState where
  closed : Bool
  activeSubscriptions : List (String × Subscription)
  clients : List Client
deriving DecidableEq, Repr

/-- Lookup in the subscription cache (first match wins; insertions prepend,
so the newest binding shadows older ones, like a Go map assignment). -/
def cacheLookup (m : List (String × Subscription)) (k : String) : Option Subscription :=
  match m with
  | [] => none
  | (k0, v) :: rest => if k0 = k then some v else cacheLookup rest k

/-- Insert into the subscription cache (`s.activeSubscriptions[name] = sub`). -/
def cacheInsert (m : List (String × Subscription)) (k : String) (v : Subscription) :
    List (String × Subscription) :=
  (k, v) :: m

/-- The state freshly produced by `NewSubscriber`. -/
def initialState : SubscriberState :=
  { closed := false, activeSubscriptions := [], clients := [] }

/-- Removal of every space character from a string, the effect of
`strings.ReplaceAll(s, " ", "")` with a single-space pattern and empty
replacement. -/
def removeSpaces (s : String) : String :=
  ⟨s.data.filter fun ch => ch ≠ ' '⟩

/-- Embedding of `Subscriber.isFilterChanged`: compare the actual filter with
the desired one after removing every space character
(`strings.ReplaceAll(filter, " ", "")`). -/
def isFilterChanged (cfg : SubscriberConfig) (config : SubscriptionConfig) : Bool :=
  let oldFilter := removeSpaces config.filter
  let newFilter := removeSpaces cfg.subscriptionConfig.filter
  oldFilter ≠ newFilter

/-- Embedding of `Subscriber.isPushEndpointChanged`. -/
def isPushEndpointChanged (cfg : SubscriberConfig) (config : SubscriptionConfig) : Bool :=
  config.pushEndpoint ≠ cfg.subscriptionConfig.pushEndpoint

/-- Embedding of `Subscriber.newClient`: open a client (recorded as the next
entry of the process-wide client list); the client is appended to
`s.clients` unconditionally on success. -/
def newClient (env : RemoteEnv) (st : SubscriberState) :
    Except String (Client × SubscriberState) :=
  match env.newClientRes with
  | .error e => .error e
  | .ok _ =>
    let client : Client := { id := st.clients.length }
    .ok (client, { st with clients := st.clients ++ [client] })

/-- Embedding of `Subscriber.createSubscription`: check the topic exists,
create it unless suppressed (treating AlreadyExists as success, re-fetching
the handle), then create the subscription (again treating AlreadyExists as
success, re-fetching the handle). -/
def createSubscription (cfg : SubscriberConfig) (env : RemoteEnv) (client : Client)
    (topicName subscriptionName : String) :
    Except SubError Subscription × List RemoteCall :=
  match env.topicExistsRes with
  | .error e => (.error (.topicExistsCheckFailed topicName e), [.topicExists topicName])
  | .ok texists =>
    if !texists && cfg.doNotCreateTopicIfMissing then
      (.error (.topicDoesNotExist topicName), [.topicExists topicName])
    else
      let topicStep : Except SubError Unit × List RemoteCall :=
        if !texists then
          match env.createTopicRes with
          | .alreadyExists => (.ok (), [.createTopic topicName])
          | .err e => (.error (.createTopicFailed e), [.createTopic topicName])
          | .ok => (.ok (), [.createTopic topicName])
        else (.ok (), [])
      match topicStep with
      | (.error e, calls) => (.error e, .topicExists topicName :: calls)
      | (.ok _, calls) =>
        match env.createSubRes with
        | .alreadyExists =>
          (.ok (client.subscriptionHandle subscriptionName),
            .topicExists topicName :: calls ++ [.createSub subscriptionName topicName])
        | .err e =>
          (.error (.createSubFailed e),
            .topicExists topicName :: calls ++ [.createSub subscriptionName topicName])
        | .ok =>
          (.ok (client.subscriptionHandle subscriptionName),
            .topicExists topicName :: calls ++ [.createSub subscriptionName topicName])

/-- Embedding of `Subscriber.existingSubscription`: fetch the actual config,
verify the fully qualified bound topic, set the receive settings on the
existing handle, then reconcile filter (delete and recreate when enabled)
or push endpoint (update unless suppressed). -/
def existingSubscription (cfg : SubscriberConfig) (env : RemoteEnv) (client : Client)
    (sub : Subscription) (topicName subscriptionName : String) :
    Except SubError Subscription × List RemoteCall :=
  match env.subConfigRes with
  | .error e => (.error (.configFetchFailed e), [.fetchConfig subscriptionName])
  | .ok config =>
    let fullyQualifiedTopicName :=
      "projects/" ++ cfg.topicProjectID ++ "/topics/" ++ topicName
    if config.topicFullName ≠ fullyQualifiedTopicName then
      (.error (.unexpectedTopic config.topicFullName fullyQualifiedTopicName),
        [.fetchConfig subscriptionName])
    else
      let sub := { sub with receiveSettings := cfg.receiveSettings }
      if isFilterChanged cfg config && cfg.recreateSubscriptionIfFilterChanged then
        match env.deleteRes with
        | some e =>
          (.error (.deleteFailed e),
            [.fetchConfig subscriptionName, .deleteSub subscriptionName])
        | none =>
          let created := createSubscription cfg env client topicName subscriptionName
          (created.1,
            .fetchConfig subscriptionName :: .deleteSub subscriptionName :: created.2)
      else if cfg.doNotUpdateSubscriptionIfEndpointChanged then
        (.ok sub, [.fetchConfig subscriptionName])
      else if isPushEndpointChanged cfg config then
        match env.updateRes with
        | .error e =>
          (.error (.updateFailed e),
            [.fetchConfig subscriptionName,
              .updateSub subscriptionName cfg.subscriptionConfig.pushEndpoint])
        | .ok _ =>
          (.ok sub,
            [.fetchConfig subscriptionName,
              .updateSub subscriptionName cfg.subscriptionConfig.pushEndpoint])
      else
        (.ok sub, [.fetchConfig subscriptionName])

/-- The body of `Subscriber.subscription` run under the exclusive
`activeSubscriptionsLock`: open a client, check existence, branch to the
existing or create path, set receive settings on the create path, and cache
the handle on success (the deferred `s.activeSubscriptions[subscriptionName]
= sub`).  Note the source does NOT re-check the cache here. -/
def subscriptionCritical (cfg : SubscriberConfig) (env : RemoteEnv)
    (st : SubscriberState) (subscriptionName topicName : String) :
    Except SubError Subscription × SubscriberState × List RemoteCall :=
  match newClient env st with
  | .error e => (.error (.newClientFailed e), st, [])
  | .ok (client, st1) =>
    let sub := client.subscriptionHandle subscriptionName
    match env.subExistsRes with
    | .error e =>
      (.error (.subExistsCheckFailed subscriptionName e), st1,
        [.subExists subscriptionName])
    | .ok true =>
      let r := existingSubscription cfg env client sub topicName subscriptionName
      match r.1 with
      | .ok s1 =>
        (.ok s1,
          { st1 with activeSubscriptions :=
              cacheInsert st1.activeSubscriptions subscriptionName s1 },
          .subExists subscriptionName :: r.2)
      | .error e => (.error e, st1, .subExists subscriptionName :: r.2)
    | .ok false =>
      if cfg.doNotCreateSubscriptionIfMissing then
        (.error (.subscriptionDoesNotExist subscriptionName), st1,
          [.subExists subscriptionName])
      else
        let r := createSubscription cfg env client topicName subscriptionName
        match r.1 with
        | .error e => (.error e, st1, .subExists subscriptionName :: r.2)
        | .ok s0 =>
          let s1 := { s0 with receiveSettings := cfg.receiveSettings }
          (.ok s1,
            { st1 with activeSubscriptions :=
                cacheInsert st1.activeSubscriptions subscriptionName s1 },
            .subExists subscriptionName :: r.2)

/-- Embedding of `Subscriber.subscription`: the read-locked cache check
followed, on a miss, by the write-locked critical section. -/
def subscription (cfg : SubscriberConfig) (env : RemoteEnv)
    (st : SubscriberState) (subscriptionName topicName : String) :
    Except SubError Subscription × SubscriberState × List RemoteCall :=
  match cacheLookup st.activeSubscriptions subscriptionName with
  | some sub => (.ok sub, st, [])
  | none => subscriptionCritical cfg env st subscriptionName topicName

/-- Embedding of the synchronous part of `Subscriber.Subscribe`: fail with
`ErrSubscriberClosed` when the closed flag is set (no resolution and no
remote call made), otherwise resolve the subscription for the generated
name. -/
def subscribe (cfg : SubscriberConfig) (env : RemoteEnv)
    (st : SubscriberState) (topic : String) :
    Except SubError Subscription × SubscriberState × List RemoteCall :=
  if st.closed then (.error .subscriberClosed, st, [])
  else subscription cfg env st (cfg.generateSubscriptionName topic) topic

/-- Embedding of `Subscriber.SubscribeInitialize`: resolve the subscription
for the generated name.  Note the source performs NO closed-flag check
here. -/
def subscribeInitialize (cfg : SubscriberConfig) (env : RemoteEnv)
    (st : SubscriberState) (topic : String) :
    Except SubError Subscription × SubscriberState × List RemoteCall :=
  subscription cfg env st (cfg.generateSubscriptionName topic) topic

/-- Embedding of `Subscriber.Close`: a no-op when already closed; otherwise
set the closed flag and release every client opened during the process
lifetime (the returned list is the clients whose `Close` is called). -/
def subscriberClose (st : SubscriberState) : SubscriberState × List Client :=
  if st.closed then (st, [])
  else ({ st with closed := true }, st.clients)

/-- Two goroutines call `subscription` concurrently on the same name while
the name is uncached: the legal interleaving in which both pass the
read-locked cache check (both observe the miss) before either enters the
write-locked critical section; the mutex then serialises the two critical
sections.  Returns both results, the final state, and the concatenated
remote-call trace. -/
def concurrentResolve2 (cfg : SubscriberConfig) (env1 env2 : RemoteEnv)
    (st : SubscriberState) (subscriptionName topicName : String) :
    (Except SubError Subscription × Except SubError Subscription) ×
      SubscriberState × List RemoteCall :=
  let r1 := subscriptionCritical cfg env1 st subscriptionName topicName
  let r2 := subscriptionCritical cfg env2 r1.2.1 subscriptionName topicName
  ((r1.1, r2.1), r2.2.1, r1.2.2 ++ r2.2.2)

/-- The internal message representation delivered to the application; only
its identity matters here. -/
structure Msg where
  uuid : String
deriving DecidableEq, Repr

/-- Winner of the first select in the receive handler: the offer of the
decoded message to the output channel races against the closing signal and
the per-message context. -/
inductive OfferRace where
  | closing : OfferRace
  | ctxDone : OfferRace
  | delivered : OfferRace
deriving DecidableEq, Repr

/-- Winner of the second select in the receive handler, after the message
was delivered: closing signal, per-message context cancellation, or the
application's ack or nack signal. -/
inductive DecisionRace where
  | closing : DecisionRace
  | ctxDone : DecisionRace
  | acked : DecisionRace
  | nacked : DecisionRace
deriving DecidableEq, Repr

/-- An upstream acknowledgment action on the Pub/Sub envelope
(`pubsubMsg.Ack()` / `pubsubMsg.Nack()`). -/
inductive Upstream where
  | ack : Upstream
  | nack : Upstream
deriving DecidableEq, Repr

/-- One received envelope, together with the oracle outcomes of its decode
and of the two races inside its handler invocation. -/
structure Envelope where
  decodeResult : Except String Msg
  offer : OfferRace
  decision : DecisionRace
deriving Repr

/-- Embedding of the per-message callback inside `Subscriber.receive`:
unmarshal (nack and return on failure), offer the message to the output
channel racing against closing and context cancellation (nack and return on
losing), then wait for exactly one of closing, context done, ack or nack,
mapping it to the upstream action.  Returns the list of upstream actions
issued for this envelope. -/
def receiveHandler (e : Envelope) : List Upstream :=
  match e.decodeResult with
  | .error _ => [.nack]
  | .ok _ =>
    match e.offer with
    | .closing => [.nack]
    | .ctxDone => [.nack]
    | .delivered =>
      match e.decision with
      | .closing => [.nack]
      | .ctxDone => [.nack]
      | .acked => [.ack]
      | .nacked => [.nack]

/-- The delivery loop over a stream of envelopes: each envelope's handler
runs to completion (a handler never terminates the loop), concatenating the
upstream actions. -/
def receiveLoop (envs : List Envelope) : List Upstream :=
  envs.flatMap receiveHandler

/-- Outcome of `backoff.Retry` around the receive loop: the loop terminated
successfully, the error was reported as permanent, or the supplied trace of
attempts ran out while still retrying. -/
inductive RetryOutcome where
  | success : RetryOutcome
  | permanentErr : String → RetryOutcome
  | stillRetrying : RetryOutcome
deriving DecidableEq, Repr

/-- Decision of the retry operation body in `Subscriber.Subscribe` for one
termination of the receive loop: given the loop's error (none meaning nil)
and the closed flag at that moment, stop with success, stop with
`backoff.Permanent(err)`, or return the error to back off and retry. -/
inductive RetryDecision where
  | stopSuccess : RetryDecision
  | stopPermanent : String → RetryDecision
  | retryAfterBackoff : String → RetryDecision
deriving DecidableEq, Repr

/-- Embedding of the closure passed to `backoff.Retry` in
`Subscriber.Subscribe`: nil error stops with success; a non-nil error while
closed becomes `backoff.Permanent(err)`; otherwise the error is returned for
another backoff attempt. -/
def retryOperation (receiveErr : Option String) (closed : Bool) : RetryDecision :=
  match receiveErr with
  | none => .stopSuccess
  | some e => if closed then .stopPermanent e else .retryAfterBackoff e

/-- Embedding of `backoff.Retry` with `MaxElapsedTime = 0` (never expires):
it keeps invoking the receive loop against the same handle until the
operation stops; each list entry is one loop termination (its error and the
closed flag then).  Also returns the handle each attempt ran against. -/
def retryLoop (sub : Subscription) :
    List (Option String × Bool) → RetryOutcome × List Subscription
  | [] => (.stillRetrying, [])
  | (receiveErr, closed) :: rest =>
    match retryOperation receiveErr closed with
    | .stopSuccess => (.success, [sub])
    | .stopPermanent e => (.permanentErr e, [sub])
    | .retryAfterBackoff _ =>
      let r := retryLoop sub rest
      (r.1, sub :: r.2)

/-- Whether a remote call is the subscription existence check (the first
remote operation of every critical section). -/
def RemoteCall.isSubExistsCall : RemoteCall → Bool
  | .subExists _ => true
  | _ => false

/-- The actual remote descriptor of a subscription bound to
`projects/p/topics/t` with empty filter and endpoint. -/
def confT : SubscriptionConfig :=
  { topicFullName := "projects/p/topics/t", filter := "", pushEndpoint := "" }

/-- An actual remote descriptor bound to topic `A` (used for the topic
mismatch scenario). -/
def confA : SubscriptionConfig :=
  { topicFullName := "projects/p/topics/A", filter := "", pushEndpoint := "" }

/-- An actual remote descriptor bound to `projects/p/topics/t` whose stored
filter is `f1`. -/
def confF : SubscriptionConfig :=
  { topicFullName := "projects/p/topics/t", filter := "f1", pushEndpoint := "" }

/-- A concrete subscriber configuration: identity naming function, project
`p`, default flags, caller receive settings `7`. -/
def cfgW : SubscriberConfig :=
  { generateSubscriptionName := fun topic => topic
    projectID := "p"
    topicProjectIDOpt := ""
    doNotCreateSubscriptionIfMissing := false
    doNotUpdateSubscriptionIfEndpointChanged := false
    recreateSubscriptionIfFilterChanged := false
    doNotCreateTopicIfMissing := false
    receiveSettings := 7
    subscriptionConfig := { topicFullName := "", filter := "", pushEndpoint := "" } }

/-- The configuration with filter-recreation enabled and desired filter
`f2`. -/
def cfg4 : SubscriberConfig :=
  { cfgW with
    recreateSubscriptionIfFilterChanged := true
    subscriptionConfig := { topicFullName := "", filter := "f2", pushEndpoint := "" } }

/-- The configuration with subscription auto-creation suppressed. -/
def cfg7a : SubscriberConfig :=
  { cfgW with doNotCreateSubscriptionIfMissing := true }

/-- The configuration with topic auto-creation suppressed. -/
def cfg7b : SubscriberConfig :=
  { cfgW with doNotCreateTopicIfMissing := true }

/-- A remote oracle in which every operation succeeds and the subscription
already exists bound to `projects/p/topics/t` with a matching descriptor. -/
def envW : RemoteEnv :=
  { newClientRes := .ok ()
    subExistsRes := .ok true
    subConfigRes := .ok confT
    deleteRes := none
    updateRes := .ok ()
    topicExistsRes := .ok true
    createTopicRes := .ok
    createSubRes := .ok }

/-- The oracle for the topic-mismatch scenario: the subscription exists but
is bound to topic `A`. -/
def env3 : RemoteEnv := { envW with subConfigRes := .ok confA }

/-- The oracle for the filter-change scenario: the subscription exists with
stored filter `f1`; delete and create succeed. -/
def env4 : RemoteEnv := { envW with subConfigRes := .ok confF }

/-- The oracle for the missing-subscription scenario: neither the
subscription nor the topic exists, and both create calls report
AlreadyExists (a concurrent creator won the race). -/
def env7 : RemoteEnv :=
  { envW with
    subExistsRes := .ok false
    topicExistsRes := .ok false
    createTopicRes := .alreadyExists
    createSubRes := .alreadyExists }

/-- The oracle in which the subscription existence check fails after the
client was opened. -/
def env10 : RemoteEnv := { envW with subExistsRes := .error "boom" }

/-- A subscriber state on which `Close` has already been called: closed
flag set, empty cache, no clients. -/
def stClosed : SubscriberState :=
  { closed := true, activeSubscriptions := [], clients := [] }

/-- The handle produced by a successful resolution of `t` under `cfgW`. -/
def subT : Subscription := { clientId := 0, name := "t", receiveSettings := 7 }

/-- A state whose cache already holds the handle for `t`. -/
def stCached : SubscriberState :=
  { closed := false, activeSubscriptions := [("t", subT)], clients := [{ id := 0 }] }

/-- Every attempt recorded by the retry loop runs against the same handle it
was started with (the closure in `Subscribe` captures `sub`). -/
theorem retryLoop_attempts_singleton (sub : Subscription)
    (l : List (Option String × Bool)) :
    ((retryLoop sub l).2.all fun s => s == sub) = true := by
  induction l with
  | nil => simp [retryLoop]
  | cons h t ih =>
    obtain ⟨r, c⟩ := h
    cases r with
    | none => simp [retryLoop, retryOperation]
    | some e =>
      cases c with
      | true => simp [retryLoop, retryOperation]
      | false => simpa [retryLoop, retryOperation] using ih

/-- With `MaxElapsedTime = 0` the retry never gives up: any number of
non-closed failures followed by a successful loop termination yields
success. -/
theorem retryLoop_unbounded (sub : Subscription) (e : String) (c : Bool) (k : Nat) :
    (retryLoop sub (List.replicate k (some e, false) ++ [(none, c)])).1
      = RetryOutcome.success := by
  induction k with
  | zero => simp [retryLoop, retryOperation]
  | succ n ih => simpa [List.replicate_succ, retryLoop, retryOperation] using ih

/-- The create path never performs a subscription existence check. -/
theorem createSubscription_no_subExists (cfg : SubscriberConfig) (env : RemoteEnv)
    (client : Client) (topicName subscriptionName : String) :
    ∀ c ∈ (createSubscription cfg env client topicName subscriptionName).2,
      c.isSubExistsCall = false := by
  unfold createSubscription
  repeat' split
  all_goals simp_all [RemoteCall.isSubExistsCall]

/-- The existing-subscription path never performs a subscription existence
check. -/
theorem existingSubscription_no_subExists (cfg : SubscriberConfig) (env : RemoteEnv)
    (client : Client) (sub : Subscription) (topicName subscriptionName : String) :
    ∀ c ∈ (existingSubscription cfg env client sub topicName subscriptionName).2,
      c.isSubExistsCall = false := by
  unfold existingSubscription
  repeat' split
  all_goals try simp_all [RemoteCall.isSubExistsCall]
  all_goals (repeat' split)
  all_goals try simp_all [RemoteCall.isSubExistsCall]
  all_goals
    intro c hc
    exact createSubscription_no_subExists cfg env client topicName subscriptionName c hc

/-- The successful result of `newClient` spelled out. -/
theorem newClient_ok (env : RemoteEnv) (st : SubscriberState)
    (hclient : env.newClientRes = .ok ()) :
    newClient env st = Except.ok ({ id := st.clients.length },
      { st with clients := st.clients ++ [{ id := st.clients.length }] }) := by
  unfold newClient
  rw [hclient]

/-- A critical section that opens its client successfully appends exactly
that client to the process-wide client list. -/
theorem subscriptionCritical_clients (cfg : SubscriberConfig) (env : RemoteEnv)
    (st : SubscriberState) (n t : String) (hclient : env.newClientRes = .ok ()) :
    (subscriptionCritical cfg env st n t).2.1.clients
      = st.clients ++ [{ id := st.clients.length }] := by
  unfold subscriptionCritical
  rw [newClient_ok env st hclient]
  repeat' split
  all_goals try simp_all
  all_goals (repeat' split)
  all_goals try (casesm* _ ∧ _)
  all_goals try subst_vars
  all_goals simp_all

/-- A critical section never changes the closed flag. -/
theorem subscriptionCritical_closed (cfg : SubscriberConfig) (env : RemoteEnv)
    (st : SubscriberState) (n t : String) (hclient : env.newClientRes = .ok ()) :
    (subscriptionCritical cfg env st n t).2.1.closed = st.closed := by
  unfold subscriptionCritical
  rw [newClient_ok env st hclient]
  repeat' split
  all_goals try simp_all
  all_goals (repeat' split)
  all_goals try (casesm* _ ∧ _)
  all_goals try subst_vars
  all_goals simp_all

/-- A critical section either succeeds and caches exactly the returned
handle, or fails and leaves the cache untouched. -/
theorem subscriptionCritical_cache (cfg : SubscriberConfig) (env : RemoteEnv)
    (st : SubscriberState) (n t : String) (hclient : env.newClientRes = .ok ()) :
    (∃ s1, (subscriptionCritical cfg env st n t).1 = .ok s1 ∧
        (subscriptionCritical cfg env st n t).2.1.activeSubscriptions
          = cacheInsert st.activeSubscriptions n s1)
    ∨ ((∃ e, (subscriptionCritical cfg env st n t).1 = .error e) ∧
        (subscriptionCritical cfg env st n t).2.1.activeSubscriptions
          = st.activeSubscriptions) := by
  unfold subscriptionCritical
  rw [newClient_ok env st hclient]
  repeat' split
  all_goals try simp_all
  all_goals (repeat' split)
  all_goals try (casesm* _ ∧ _)
  all_goals try subst_vars
  all_goals simp_all

/-- A critical section that opens its client performs exactly one
subscription existence check, on the requested name. -/
theorem subscriptionCritical_one_subExists (cfg : SubscriberConfig) (env : RemoteEnv)
    (st : SubscriberState) (n t : String) (hclient : env.newClientRes = .ok ()) :
    ((subscriptionCritical cfg env st n t).2.2.filter
      fun c => c.isSubExistsCall) = [.subExists n] := by
  unfold subscriptionCritical
  rw [newClient_ok env st hclient]
  repeat' split
  all_goals try simp_all [RemoteCall.isSubExistsCall, List.filter_eq_nil_iff,
    createSubscription_no_subExists, existingSubscription_no_subExists]
  all_goals (repeat' split)
  all_goals try (casesm* _ ∧ _)
  all_goals try subst_vars
  all_goals try simp_all [RemoteCall.isSubExistsCall, List.filter_eq_nil_iff,
    createSubscription_no_subExists, existingSubscription_no_subExists]
  all_goals intro a ha
  all_goals
    first
    | exact existingSubscription_no_subExists cfg env { id := st.clients.length }
        (Client.subscriptionHandle { id := st.clients.length } n) t n a ha
    | exact createSubscription_no_subExists cfg env { id := st.clients.length } t n a ha

/-- A cache hit returns the cached handle at once, with no state change and
no remote call. -/
theorem subscription_cache_hit (cfg : SubscriberConfig) (env : RemoteEnv)
    (st : SubscriberState) (n t : String) (sub : Subscription)
    (hhit : cacheLookup st.activeSubscriptions n = some sub) :
    subscription cfg env st n t = (.ok sub, st, []) := by
  unfold subscription
  rw [hhit]

/-- On a cache miss `subscription` is exactly the critical section. -/
theorem subscription_cache_miss (cfg : SubscriberConfig) (env : RemoteEnv)
    (st : SubscriberState) (n t : String)
    (hmiss : cacheLookup st.activeSubscriptions n = none) :
    subscription cfg env st n t = subscriptionCritical cfg env st n t := by
  unfold subscription
  rw [hmiss]

/-- C1: for every envelope that the delivery loop has successfully delivered
into the output stream, exactly one outcome is relayed upstream: the
envelope is acked exactly when the application's acknowledgment signal
fires, and nacked in every other case (shutdown, per-message context
cancellation, application rejection) — never both and never neither. -/
theorem delivered_envelope_exactly_one_outcome (m : Msg) (d : DecisionRace) :
    receiveHandler { decodeResult := .ok m, offer := .delivered, decision := d }
        = (if d = DecisionRace.acked then [Upstream.ack] else [Upstream.nack])
    ∧ (receiveHandler
        { decodeResult := .ok m, offer := .delivered, decision := d }).length = 1 := by
  cases d <;> exact ⟨rfl, rfl⟩

/-- C9: an envelope whose decode fails is immediately nacked upstream and
the loop keeps processing the remaining envelopes; a decode failure never
terminates the loop and never produces an ack. -/
theorem decode_failure_nacks_and_continues (pre suf : List Envelope)
    (err : String) (o : OfferRace) (d : DecisionRace) :
    receiveLoop
        (pre ++ { decodeResult := .error err, offer := o, decision := d } :: suf)
      = receiveLoop pre ++ Upstream.nack :: receiveLoop suf := by
  simp [receiveLoop, receiveHandler]

/-- C8: the retry supervisor's policy for each loop termination: nil error
stops with success; an error while closed stops and reports that same error
as permanent (not masked); any other error backs off and retries against
the same handle, with no bound on the number of retries
(`MaxElapsedTime = 0`). -/
theorem retry_supervisor_policy (sub : Subscription) (e : String) (c : Bool)
    (rest : List (Option String × Bool)) (k : Nat) :
    retryOperation none c = .stopSuccess
    ∧ retryOperation (some e) true = .stopPermanent e
    ∧ retryOperation (some e) false = .retryAfterBackoff e
    ∧ retryLoop sub ((none, c) :: rest) = (.success, [sub])
    ∧ retryLoop sub ((some e, true) :: rest) = (.permanentErr e, [sub])
    ∧ retryLoop sub ((some e, false) :: rest)
        = ((retryLoop sub rest).1, sub :: (retryLoop sub rest).2)
    ∧ (retryLoop sub (List.replicate k (some e, false) ++ [(none, c)])).1
        = RetryOutcome.success
    ∧ ((retryLoop sub ((some e, false) :: rest)).2.all fun s => s == sub) = true := by
  refine ⟨rfl, rfl, rfl, rfl, rfl, rfl, retryLoop_unbounded sub e c k,
    retryLoop_attempts_singleton sub ((some e, false) :: rest)⟩

/-- An ok result of the create path is a freshly fetched handle with
zero-value receive settings. -/
theorem createSubscription_settings_zero (cfg : SubscriberConfig) (env : RemoteEnv)
    (client : Client) (topicName subscriptionName : String) :
    ∀ s, (createSubscription cfg env client topicName subscriptionName).1 = .ok s →
      s.receiveSettings = 0 := by
  intro s hs
  unfold createSubscription at hs
  repeat' split at hs
  all_goals try (cases hs)
  all_goals simp_all [Client.subscriptionHandle]

/-- C3: resolving an existing subscription whose actual bound topic differs
from the fully qualified expected topic fails with the topic-mismatch
error, whatever the other descriptor fields are, and performs no delete,
update, create or other remote mutation. -/
theorem existing_topic_mismatch_fails_no_mutation
    (cfg : SubscriberConfig) (env : RemoteEnv) (client : Client)
    (sub : Subscription) (topicName subscriptionName : String)
    (config : SubscriptionConfig)
    (hconf : env.subConfigRes = .ok config)
    (hmismatch : config.topicFullName
      ≠ "projects/" ++ cfg.topicProjectID ++ "/topics/" ++ topicName) :
    (existingSubscription cfg env client sub topicName subscriptionName).1
        = .error (.unexpectedTopic config.topicFullName
            ("projects/" ++ cfg.topicProjectID ++ "/topics/" ++ topicName))
    ∧ ((existingSubscription cfg env client sub topicName subscriptionName).2.filter
        fun c => c.isMutation) = [] := by
  unfold existingSubscription
  rw [hconf]
  simp [hmismatch, RemoteCall.isMutation]

/-- Witness: the subscription exists bound to topic `A` while the caller
requests topic `B`; resolution fails with the mismatch error and no
mutating remote call is made. -/
theorem existing_topic_mismatch_fails_no_mutation_witness :
    env3.subConfigRes = .ok confA
    ∧ confA.topicFullName ≠ "projects/" ++ cfgW.topicProjectID ++ "/topics/" ++ "B"
    ∧ (existingSubscription cfgW env3 { id := 0 }
          (Client.subscriptionHandle { id := 0 } "s") "B" "s").1
        = .error (.unexpectedTopic confA.topicFullName
            ("projects/" ++ cfgW.topicProjectID ++ "/topics/" ++ "B"))
    ∧ ((existingSubscription cfgW env3 { id := 0 }
          (Client.subscriptionHandle { id := 0 } "s") "B" "s").2.filter
        fun c => c.isMutation) = [] := by
  refine ⟨rfl, by decide, ?_⟩
  exact existing_topic_mismatch_fails_no_mutation cfgW env3 { id := 0 }
    (Client.subscriptionHandle { id := 0 } "s") "B" "s" confA rfl (by decide)

/-- C6: for an existing, topic-matching subscription, when filter-recreation
is enabled and the filter differs after removing spaces, resolution deletes
the subscription and recreates it against the same topic, propagating the
delete error and any creation error; when filter-recreation is disabled the
filter is left untouched (the only remote calls are the config fetch and
possibly a push-endpoint update) and resolution proceeds. -/
theorem filter_change_recreation
    (cfg : SubscriberConfig) (env : RemoteEnv) (client : Client)
    (sub : Subscription) (topicName subscriptionName : String)
    (config : SubscriptionConfig)
    (hconf : env.subConfigRes = .ok config)
    (hmatch : config.topicFullName
      = "projects/" ++ cfg.topicProjectID ++ "/topics/" ++ topicName) :
    (isFilterChanged cfg config = true →
      cfg.recreateSubscriptionIfFilterChanged = true →
      (env.deleteRes = none →
        existingSubscription cfg env client sub topicName subscriptionName
          = ((createSubscription cfg env client topicName subscriptionName).1,
              .fetchConfig subscriptionName :: .deleteSub subscriptionName ::
                (createSubscription cfg env client topicName subscriptionName).2))
      ∧ ∀ e, env.deleteRes = some e →
          existingSubscription cfg env client sub topicName subscriptionName
            = (.error (.deleteFailed e),
                [.fetchConfig subscriptionName, .deleteSub subscriptionName]))
    ∧ (cfg.recreateSubscriptionIfFilterChanged = false →
        (existingSubscription cfg env client sub topicName subscriptionName).2
            = [.fetchConfig subscriptionName]
          ∨ (existingSubscription cfg env client sub topicName subscriptionName).2
            = [.fetchConfig subscriptionName,
                .updateSub subscriptionName cfg.subscriptionConfig.pushEndpoint]) := by
  constructor
  · intro hfc hrec
    constructor
    · intro hdel
      unfold existingSubscription
      rw [hconf, hdel]
      simp [hmatch, hfc, hrec]
    · intro e hdel
      unfold existingSubscription
      rw [hconf, hdel]
      simp [hmatch, hfc, hrec]
  · intro hrec
    unfold existingSubscription
    rw [hconf]
    simp only [hmatch, hrec]
    repeat' split
    all_goals simp_all

/-- Witness: with filter-recreation enabled and stored filter `f1` against
desired filter `f2`, resolution deletes and recreates against the same
topic; with it disabled under a matching descriptor no delete or create
call occurs. -/
theorem filter_change_recreation_witness :
    env4.subConfigRes = .ok confF
    ∧ confF.topicFullName = "projects/" ++ cfg4.topicProjectID ++ "/topics/" ++ "t"
    ∧ isFilterChanged cfg4 confF = true
    ∧ cfg4.recreateSubscriptionIfFilterChanged = true
    ∧ env4.deleteRes = none
    ∧ existingSubscription cfg4 env4 { id := 0 }
          (Client.subscriptionHandle { id := 0 } "s") "t" "s"
        = ((createSubscription cfg4 env4 { id := 0 } "t" "s").1,
            .fetchConfig "s" :: .deleteSub "s" ::
              (createSubscription cfg4 env4 { id := 0 } "t" "s").2)
    ∧ cfgW.recreateSubscriptionIfFilterChanged = false
    ∧ ((existingSubscription cfgW envW { id := 0 }
            (Client.subscriptionHandle { id := 0 } "t") "t" "t").2
          = [.fetchConfig "t"]
        ∨ (existingSubscription cfgW envW { id := 0 }
            (Client.subscriptionHandle { id := 0 } "t") "t" "t").2
          = [.fetchConfig "t", .updateSub "t" cfgW.subscriptionConfig.pushEndpoint]) := by
  refine ⟨rfl, by decide, by decide, rfl, rfl, ?_, rfl, ?_⟩
  · exact ((filter_change_recreation cfg4 env4 { id := 0 }
      (Client.subscriptionHandle { id := 0 } "s") "t" "s" confF rfl
      (by decide)).1 (by decide) rfl).1 rfl
  · exact (filter_change_recreation cfgW envW { id := 0 }
      (Client.subscriptionHandle { id := 0 } "t") "t" "t" confT rfl
      (by decide)).2 rfl

/-- C4 counterexample: with filter-recreation enabled and a changed filter,
the recreated handle is returned with zero-value receive settings even
though the caller configured settings `7` — the claim that settings are
applied before return on the recreated path is false. -/
theorem recreated_handle_missing_settings_counterexample :
    (existingSubscription cfg4 env4 { id := 0 }
        (Client.subscriptionHandle { id := 0 } "s") "t" "s").1
      = .ok { clientId := 0, name := "s", receiveSettings := 0 }
    ∧ cfg4.receiveSettings = 7 := by
  exact ⟨by decide, rfl⟩

/-- C4 amended: the caller's receive settings are applied to the returned
handle on the found-existing (non-recreated) path and on the
newly-created path, but a handle recreated after a filter change is
returned with zero-value receive settings. -/
theorem receive_settings_application
    (cfg : SubscriberConfig) (env : RemoteEnv) (client : Client)
    (sub0 : Subscription) (st : SubscriberState)
    (n topicName : String) (config : SubscriptionConfig) :
    (env.subConfigRes = .ok config →
      config.topicFullName = "projects/" ++ cfg.topicProjectID ++ "/topics/" ++ topicName →
      (isFilterChanged cfg config && cfg.recreateSubscriptionIfFilterChanged) = false →
      ∀ s, (existingSubscription cfg env client sub0 topicName n).1 = .ok s →
        s.receiveSettings = cfg.receiveSettings)
    ∧ (cacheLookup st.activeSubscriptions n = none →
        env.subExistsRes = .ok false →
        ∀ s, (subscription cfg env st n topicName).1 = .ok s →
          s.receiveSettings = cfg.receiveSettings)
    ∧ (env.subConfigRes = .ok config →
        config.topicFullName = "projects/" ++ cfg.topicProjectID ++ "/topics/" ++ topicName →
        (isFilterChanged cfg config && cfg.recreateSubscriptionIfFilterChanged) = true →
        env.deleteRes = none →
        ∀ s, (existingSubscription cfg env client sub0 topicName n).1 = .ok s →
          s.receiveSettings = 0) := by
  refine ⟨?_, ?_, ?_⟩
  · intro hconf hmatch hfc s hs
    unfold existingSubscription at hs
    rw [hconf] at hs
    simp only [hmatch, hfc] at hs
    repeat' split at hs
    all_goals try (cases hs)
    all_goals simp_all
  · intro hmiss hexists s hs
    rw [subscription_cache_miss cfg env st n topicName hmiss] at hs
    cases hnc : env.newClientRes with
    | error e =>
      unfold subscriptionCritical newClient at hs
      rw [hnc] at hs
      simp at hs
    | ok u =>
      cases u
      unfold subscriptionCritical at hs
      rw [newClient_ok env st hnc, hexists] at hs
      simp at hs
      repeat' split at hs
      all_goals try (cases hs)
      all_goals simp_all
  · intro hconf hmatch hfc hdel s hs
    unfold existingSubscription at hs
    rw [hconf, hdel] at hs
    simp only [hmatch, hfc] at hs
    simp at hs
    exact createSubscription_settings_zero cfg env client topicName n s hs

/-- Witness: settings `7` are applied on the found-existing path and on the
newly-created path, while the filter-recreated handle keeps settings `0`. -/
theorem receive_settings_application_witness :
    envW.subConfigRes = .ok confT
    ∧ confT.topicFullName = "projects/" ++ cfgW.topicProjectID ++ "/topics/" ++ "t"
    ∧ (isFilterChanged cfgW confT && cfgW.recreateSubscriptionIfFilterChanged) = false
    ∧ (existingSubscription cfgW envW { id := 0 }
          (Client.subscriptionHandle { id := 0 } "t") "t" "t").1 = .ok subT
    ∧ subT.receiveSettings = cfgW.receiveSettings
    ∧ env7.subExistsRes = .ok false
    ∧ (subscription cfgW env7 initialState "s" "t").1
        = .ok { clientId := 0, name := "s", receiveSettings := 7 }
    ∧ (isFilterChanged cfg4 confF && cfg4.recreateSubscriptionIfFilterChanged) = true
    ∧ ∀ s, (existingSubscription cfg4 env4 { id := 0 }
          (Client.subscriptionHandle { id := 0 } "s") "t" "s").1 = .ok s →
        s.receiveSettings = 0 := by
  refine ⟨rfl, by decide, by decide, by decide, rfl, rfl, by decide, by decide, ?_⟩
  exact (receive_settings_application cfg4 env4 { id := 0 }
    (Client.subscriptionHandle { id := 0 } "s") initialState "s" "t" confF).2.2
    rfl (by decide) (by decide) rfl

/-- C7: when the subscription does not exist: with subscription-creation
suppressed resolution fails with the subscription-does-not-exist error;
with a missing topic and topic-creation suppressed the create path fails
with the topic-does-not-exist error; and an AlreadyExists outcome from
either create call behaves exactly like a successful create (the resource
handle is re-fetched instead of an error being returned). -/
theorem missing_resource_create_policy
    (cfg : SubscriberConfig) (env : RemoteEnv) (st : SubscriberState)
    (client : Client) (n topicName : String)
    (hmiss : cacheLookup st.activeSubscriptions n = none)
    (hexists : env.subExistsRes = .ok false) :
    (cfg.doNotCreateSubscriptionIfMissing = true →
      env.newClientRes = .ok () →
      (subscription cfg env st n topicName).1 = .error (.subscriptionDoesNotExist n))
    ∧ (env.topicExistsRes = .ok false →
        cfg.doNotCreateTopicIfMissing = true →
        (createSubscription cfg env client topicName n).1
          = .error (.topicDoesNotExist topicName))
    ∧ (env.createTopicRes = .alreadyExists →
        createSubscription cfg env client topicName n
          = createSubscription cfg { env with createTopicRes := .ok } client topicName n)
    ∧ (env.createSubRes = .alreadyExists →
        createSubscription cfg env client topicName n
          = createSubscription cfg { env with createSubRes := .ok } client topicName n) := by
  refine ⟨?_, ?_, ?_, ?_⟩
  · intro hdm hnc
    rw [subscription_cache_miss cfg env st n topicName hmiss]
    unfold subscriptionCritical
    rw [newClient_ok env st hnc, hexists]
    simp [hdm]
  · intro hte hdt
    unfold createSubscription
    rw [hte]
    simp [hdt]
  · intro hct
    unfold createSubscription
    rw [hct]
  · intro hcs
    unfold createSubscription
    rw [hcs]

/-- Witness: a missing subscription with suppressed creation fails; a
missing topic with suppressed topic creation fails; AlreadyExists from the
topic and subscription create calls is equivalent to a successful create. -/
theorem missing_resource_create_policy_witness :
    cacheLookup initialState.activeSubscriptions "s" = none
    ∧ env7.subExistsRes = .ok false
    ∧ (subscription cfg7a env7 initialState "s" "t").1
        = .error (.subscriptionDoesNotExist "s")
    ∧ (createSubscription cfg7b env7 { id := 0 } "t" "s").1
        = .error (.topicDoesNotExist "t")
    ∧ createSubscription cfgW env7 { id := 0 } "t" "s"
        = createSubscription cfgW { env7 with createTopicRes := .ok } { id := 0 } "t" "s"
    ∧ createSubscription cfgW env7 { id := 0 } "t" "s"
        = createSubscription cfgW { env7 with createSubRes := .ok } { id := 0 } "t" "s" := by
  refine ⟨rfl, rfl, ?_, ?_, ?_, ?_⟩
  · exact (missing_resource_create_policy cfg7a env7 initialState { id := 0 }
      "s" "t" rfl rfl).1 rfl rfl
  · exact (missing_resource_create_policy cfg7b env7 initialState { id := 0 }
      "s" "t" rfl rfl).2.1 rfl rfl
  · exact (missing_resource_create_policy cfgW env7 initialState { id := 0 }
      "s" "t" rfl rfl).2.2.1 rfl
  · exact (missing_resource_create_policy cfgW env7 initialState { id := 0 }
      "s" "t" rfl rfl).2.2.2 rfl

/-- C10: when resolution fails at any step after the client connection was
opened, no entry is added to the name-to-handle cache, yet the client
opened during the failed attempt remains recorded in the process-wide
client list and is among the clients released by Close. -/
theorem failed_resolution_uncached_client_retained
    (cfg : SubscriberConfig) (env : RemoteEnv) (st : SubscriberState)
    (n topicName : String) (e : SubError)
    (hmiss : cacheLookup st.activeSubscriptions n = none)
    (hclient : env.newClientRes = .ok ())
    (herr : (subscription cfg env st n topicName).1 = .error e) :
    (subscription cfg env st n topicName).2.1.activeSubscriptions
        = st.activeSubscriptions
    ∧ (subscription cfg env st n topicName).2.1.clients
        = st.clients ++ [{ id := st.clients.length }]
    ∧ (st.closed = false →
        { id := st.clients.length }
          ∈ (subscriberClose (subscription cfg env st n topicName).2.1).2) := by
  rw [subscription_cache_miss cfg env st n topicName hmiss] at herr ⊢
  rcases subscriptionCritical_cache cfg env st n topicName hclient with
    ⟨s1, hok, _⟩ | ⟨_, hcache⟩
  · rw [hok] at herr
    exact absurd herr (by simp)
  · refine ⟨hcache, subscriptionCritical_clients cfg env st n topicName hclient, ?_⟩
    intro hcl
    have hc := subscriptionCritical_clients cfg env st n topicName hclient
    have hclosed := subscriptionCritical_closed cfg env st n topicName hclient
    unfold subscriberClose
    rw [hclosed, hcl, hc]
    simp

/-- Witness: the existence check fails after the client was opened; the
cache stays empty while the client stays recorded and is released by
Close. -/
theorem failed_resolution_uncached_client_retained_witness :
    cacheLookup initialState.activeSubscriptions "s" = none
    ∧ env10.newClientRes = .ok ()
    ∧ (subscription cfgW env10 initialState "s" "t").1
        = .error (.subExistsCheckFailed "s" "boom")
    ∧ (subscription cfgW env10 initialState "s" "t").2.1.activeSubscriptions
        = initialState.activeSubscriptions
    ∧ (subscription cfgW env10 initialState "s" "t").2.1.clients
        = initialState.clients ++ [{ id := initialState.clients.length }]
    ∧ { id := initialState.clients.length }
        ∈ (subscriberClose (subscription cfgW env10 initialState "s" "t").2.1).2 := by
  have h := failed_resolution_uncached_client_retained cfgW env10 initialState
    "s" "t" (.subExistsCheckFailed "s" "boom") rfl rfl rfl
  exact ⟨rfl, rfl, rfl, h.1, h.2.1, h.2.2 rfl⟩

/-- C5 counterexample: `SubscribeInitialize` invoked on a closed subscriber
does not fail with the subscriber-closed error: it performs the full
resolution, issuing remote calls and opening a client. -/
theorem subscribeInitialize_after_close_counterexample :
    stClosed.closed = true
    ∧ (subscribeInitialize cfgW envW stClosed "t").1
        = .ok { clientId := 0, name := "t", receiveSettings := 7 }
    ∧ (subscribeInitialize cfgW envW stClosed "t").1 ≠ .error .subscriberClosed
    ∧ (subscribeInitialize cfgW envW stClosed "t").2.2
        = [.subExists "t", .fetchConfig "t"]
    ∧ (subscribeInitialize cfgW envW stClosed "t").2.1.clients = [{ id := 0 }] := by
  exact ⟨rfl, by decide, by decide, by decide, by decide⟩

/-- C5 amended: after shutdown is requested, `Subscribe` fails immediately
with the subscriber-closed error, with no resolution, no state change and
no remote call; `SubscribeInitialize`, however, performs no closed-flag
check and still runs the full resolution on a closed subscriber, opening a
new client. -/
theorem closed_check_entry_points
    (cfg : SubscriberConfig) (env : RemoteEnv) (st : SubscriberState)
    (topic : String) :
    (st.closed = true →
      subscribe cfg env st topic = (.error .subscriberClosed, st, []))
    ∧ (st.closed = true →
        cacheLookup st.activeSubscriptions (cfg.generateSubscriptionName topic) = none →
        env.newClientRes = .ok () →
        (subscribeInitialize cfg env st topic).2.1.clients
          = st.clients ++ [{ id := st.clients.length }]) := by
  constructor
  · intro hc
    simp [subscribe, hc]
  · intro _ hmiss hnc
    unfold subscribeInitialize
    rw [subscription_cache_miss cfg env st (cfg.generateSubscriptionName topic) topic hmiss]
    exact subscriptionCritical_clients cfg env st (cfg.generateSubscriptionName topic) topic hnc

/-- Witness: on the closed state, `Subscribe` fails with the closed error
while `SubscribeInitialize` opens a client. -/
theorem closed_check_entry_points_witness :
    stClosed.closed = true
    ∧ cacheLookup stClosed.activeSubscriptions (cfgW.generateSubscriptionName "t") = none
    ∧ envW.newClientRes = .ok ()
    ∧ subscribe cfgW envW stClosed "t" = (.error .subscriberClosed, stClosed, [])
    ∧ (subscribeInitialize cfgW envW stClosed "t").2.1.clients
        = stClosed.clients ++ [{ id := stClosed.clients.length }] := by
  exact ⟨rfl, rfl, rfl,
    (closed_check_entry_points cfgW envW stClosed "t").1 rfl,
    (closed_check_entry_points cfgW envW stClosed "t").2 rfl rfl rfl⟩

/-- C2 counterexample: two concurrent resolvers of the same topic that both
pass the read-locked cache check each run the full remote sequence (two
existence checks, two clients opened) and receive different handles,
refuting the exactly-one-remote-sequence, identical-handles claim. -/
theorem concurrent_resolve_counterexample :
    ((concurrentResolve2 cfgW envW envW initialState "t" "t").2.2.filter
        fun c => c.isSubExistsCall) = [.subExists "t", .subExists "t"]
    ∧ (concurrentResolve2 cfgW envW envW initialState "t" "t").1.1
        = .ok { clientId := 0, name := "t", receiveSettings := 7 }
    ∧ (concurrentResolve2 cfgW envW envW initialState "t" "t").1.2
        = .ok { clientId := 1, name := "t", receiveSettings := 7 }
    ∧ (concurrentResolve2 cfgW envW envW initialState "t" "t").1.1
        ≠ (concurrentResolve2 cfgW envW envW initialState "t" "t").1.2 := by
  exact ⟨by decide, by decide, by decide, by decide⟩

/-- C2 amended: the resolver does not re-check the cache after acquiring
the exclusive lock, so two concurrent callers that both pass the
read-locked cache check each perform their own remote existence-check
sequence (two checks, two clients opened) and need not receive the same
handle; only a call that finds the name already cached returns the cached
handle with no remote call. -/
theorem concurrent_resolve_no_double_check
    (cfg : SubscriberConfig) (env1 env2 : RemoteEnv) (st : SubscriberState)
    (n topicName : String)
    (h1 : env1.newClientRes = .ok ()) (h2 : env2.newClientRes = .ok ()) :
    ((concurrentResolve2 cfg env1 env2 st n topicName).2.2.filter
        fun c => c.isSubExistsCall) = [.subExists n, .subExists n]
    ∧ (concurrentResolve2 cfg env1 env2 st n topicName).2.1.clients.length
        = st.clients.length + 2
    ∧ ∀ sub, cacheLookup st.activeSubscriptions n = some sub →
        subscription cfg env1 st n topicName = (.ok sub, st, []) := by
  have e1 := subscriptionCritical_one_subExists cfg env1 st n topicName h1
  have hc1 := subscriptionCritical_clients cfg env1 st n topicName h1
  have e2 := subscriptionCritical_one_subExists cfg env2
    (subscriptionCritical cfg env1 st n topicName).2.1 n topicName h2
  have hc2 := subscriptionCritical_clients cfg env2
    (subscriptionCritical cfg env1 st n topicName).2.1 n topicName h2
  refine ⟨?_, ?_, ?_⟩
  · simp [concurrentResolve2, List.filter_append, e1, e2]
  · simp only [concurrentResolve2]
    rw [hc2, hc1]
    simp
  · intro sub hhit
    exact subscription_cache_hit cfg env1 st n topicName sub hhit

/-- Witness: two all-success resolvers against a state that caches the
handle for another run; the cached lookup returns that handle with no
remote call while two parallel critical sections run two sequences. -/
theorem concurrent_resolve_no_double_check_witness :
    envW.newClientRes = .ok ()
    ∧ cacheLookup stCached.activeSubscriptions "t" = some subT
    ∧ ((concurrentResolve2 cfgW envW envW stCached "t" "t").2.2.filter
        fun c => c.isSubExistsCall) = [.subExists "t", .subExists "t"]
    ∧ (concurrentResolve2 cfgW envW envW stCached "t" "t").2.1.clients.length
        = stCached.clients.length + 2
    ∧ subscription cfgW envW stCached "t" "t" = (.ok subT, stCached, []) := by
  have h := concurrent_resolve_no_double_check cfgW envW envW stCached "t" "t" rfl rfl
  exact ⟨rfl, rfl, h.1, h.2.1, h.2.2 subT rfl⟩

end GCloud
